import Mathlib

/-!
Verification of the route-optimization core of the streamlit_route_mvp
repository (src/utils/optimization.py), shallowly embedded in Lean 4.

Modelling conventions:
  - Python scalar values that may appear in the time-window fields of a stop
    record are modelled by `PyVal` (a string, None, a time object, an int),
    with Python truthiness as `PyVal.truthy`.
  - Fallible Python code (int() on a string, list indexing inside
    time_to_minutes) is modelled with `Except String`, the error string naming
    the Python exception class that would be raised.
  - Geographic coordinates are rationals; the floating-point arithmetic of
    compute_euclidean_distance_matrix is idealized over the reals, with
    Python int() truncation rendered as the natural floor (the operand is
    nonnegative).
  - The third-party OR-Tools solver is external to the repository; a solved
    assignment is modelled abstractly as a per-vehicle walk (`VehicleRoute`)
    together with the library contract that every posted constraint holds in
    a returned solution (`RespectsTimeWindows`).
-/

namespace RouteOpt

/-- Decidable equality for `Except`, needed to evaluate concrete runs of the
fallible embedded functions. -/
instance {ε α : Type} [DecidableEq ε] [DecidableEq α] : DecidableEq (Except ε α) := fun
  | .ok a, .ok b =>
    if h : a = b then .isTrue (by rw [h]) else .isFalse (by intro hc; cases hc; exact h rfl)
  | .ok _, .error _ => .isFalse (by intro hc; cases hc)
  | .error _, .ok _ => .isFalse (by intro hc; cases hc)
  | .error e, .error f =>
    if h : e = f then .isTrue (by rw [h]) else .isFalse (by intro hc; cases hc; exact h rfl)

/-- Python value that may occupy the time_window_start / time_window_end
fields of a stop record. -/
inductive PyVal where
  | vStr (s : String)
  | vNone
  | vTime (h m : Nat)
  | vInt (n : Int)
deriving DecidableEq, Repr

/-- Python truthiness for `PyVal`: empty string and None and 0 are falsy;
nonempty strings, time objects and nonzero ints are truthy. -/
def PyVal.truthy : PyVal → Bool
  | .vStr s => !s.isEmpty
  | .vNone => false
  | .vTime _ _ => true
  | .vInt n => n != 0

/-- Python str.split with a one-character separator, over the character
list of the string: splitting the empty string yields one empty part. -/
def pySplit (c : Char) : List Char → List (List Char)
  | [] => [[]]
  | a :: rest =>
    match pySplit c rest with
    | [] => [[a]]
    | h :: t => if a = c then [] :: h :: t else (a :: h) :: t

/-- Decimal digit parse of a nonempty all-digit character list. -/
def parseDigits (cs : List Char) : Option Nat :=
  match cs with
  | [] => none
  | _ =>
    if cs.all (fun c => c.isDigit) then
      some (cs.foldl (fun n c => n * 10 + (c.toNat - 48)) 0)
    else none

/-- Python int(s) on a string: optional surrounding whitespace, optional
sign, then decimal digits; anything else raises ValueError. -/
def pyInt (s : List Char) : Except String Int :=
  let t := ((s.dropWhile (fun c => c.isWhitespace)).reverse.dropWhile
    (fun c => c.isWhitespace)).reverse
  match t with
  | '-' :: rest =>
    match parseDigits rest with
    | some n => .ok (-(n : Int))
    | none => .error "ValueError"
  | '+' :: rest =>
    match parseDigits rest with
    | some n => .ok (n : Int)
    | none => .error "ValueError"
  | _ =>
    match parseDigits t with
    | some n => .ok (n : Int)
    | none => .error "ValueError"

/-- Embedding of time_to_minutes: on a string, split on the colon, parse the
first two parts as ints and return hours*60 + minutes (propagating ValueError
from int() and IndexError from a missing second part, in source order); on
any non-string argument, return 0. -/
def time_to_minutes (v : PyVal) : Except String Int :=
  match v with
  | .vStr s =>
    match pySplit ':' s.toList with
    | [] => .error "IndexError"
    | p0 :: rest => do
      let hours ← pyInt p0
      match rest with
      | [] => .error "IndexError"
      | p1 :: _ => do
        let minutes ← pyInt p1
        .ok (hours * 60 + minutes)
  | _ => .ok 0

/-- A stop record as consumed by create_data_model. Fields the optimizer
reads: optional service duration (dict key absent modelled as `none`),
time-window endpoints as Python values, optional coordinates. -/
structure Stop where
  name : String := ""
  service_duration : Option Nat := none
  time_window_start : PyVal := .vNone
  time_window_end : PyVal := .vNone
  latitude : Option ℚ := none
  longitude : Option ℚ := none
deriving DecidableEq, Repr

/-- A technician record; only its presence (vehicle count) matters to the
solver. -/
structure Technician where
  name : String := ""
deriving DecidableEq, Repr

/-- The problem descriptor built by create_data_model. -/
structure DataModel where
  num_vehicles : Nat
  depot : Nat
  stops : List Stop
  technicians : List Technician
  time_windows : List (Int × Int)
  service_times : List Nat
  locations : List (ℚ × ℚ)
deriving DecidableEq, Repr

/-- Depot window start: 8:00 AM in minutes from midnight. -/
def depotStart : Int := 480

/-- Depot window end: 5:00 PM in minutes from midnight. -/
def depotEnd : Int := 1020

/-- Loop body of the time-window loop in create_data_model: when both window
fields are truthy they are parsed with time_to_minutes, otherwise the depot
working-day window is used. -/
def stopWindow (stop : Stop) : Except String (Int × Int) :=
  if stop.time_window_start.truthy && stop.time_window_end.truthy then do
    let s ← time_to_minutes stop.time_window_start
    let e ← time_to_minutes stop.time_window_end
    .ok (s, e)
  else
    .ok (depotStart, depotEnd)

/-- Depot location choice of create_data_model: the explicit depot_location
when given, else the coordinates of the first stop when both are truthy
(nonzero), else the placeholder (0, 0). -/
def depotLocation (stops : List Stop) (depot_location : Option (ℚ × ℚ)) : ℚ × ℚ :=
  match depot_location with
  | some loc => loc
  | none =>
    match stops with
    | s0 :: _ =>
      match s0.latitude, s0.longitude with
      | some la, some lo => if la ≠ 0 ∧ lo ≠ 0 then (la, lo) else (0, 0)
      | _, _ => (0, 0)
    | [] => (0, 0)

/-- The time-window loop of create_data_model over the stop list, in source
order: the first parsing exception aborts the whole construction. -/
def stopWindowsOf : List Stop → Except String (List (Int × Int))
  | [] => .ok []
  | s :: rest => do
    let w ← stopWindow s
    let ws ← stopWindowsOf rest
    .ok (w :: ws)

/-- Embedding of create_data_model: record vehicle count, depot index 0, the
depot window followed by one (possibly defaulted) window per stop, service
times (0 for the depot, defaulting to 30 per stop), and locations (depot
first). A window-parsing exception propagates out, as in the source. -/
def create_data_model (stops : List Stop) (technicians : List Technician)
    (depot_location : Option (ℚ × ℚ) := none) : Except String DataModel := do
  let stopWindows ← stopWindowsOf stops
  .ok { num_vehicles := technicians.length
        depot := 0
        stops := stops
        technicians := technicians
        time_windows := (depotStart, depotEnd) :: stopWindows
        service_times := 0 :: stops.map (fun s => s.service_duration.getD 30)
        locations := depotLocation stops depot_location ::
          stops.map (fun s => (s.latitude.getD 0, s.longitude.getD 0)) }

/-- Travel time, in whole minutes, between two coordinate pairs under the
Euclidean fallback: straight-line degree distance, scaled by 69 miles per
degree, at 30 mph, times 60 minutes per hour, truncated by Python int()
(the operand is nonnegative, so truncation is the floor). -/
noncomputable def euclid_time (p q : ℚ × ℚ) : ℕ :=
  ⌊Real.sqrt (((p.1 : ℝ) - (q.1 : ℝ)) ^ 2 + ((p.2 : ℝ) - (q.2 : ℝ)) ^ 2) * 69 / 30 * 60⌋₊

/-- Embedding of compute_euclidean_distance_matrix: zero on the diagonal,
`euclid_time` off it; entries are read at in-range indices only. -/
noncomputable def compute_euclidean_distance_matrix (locations : List (ℚ × ℚ)) (i j : ℕ) : ℕ :=
  if i = j then 0 else euclid_time (locations.getD i (0, 0)) (locations.getD j (0, 0))

/-- The transit callback registered in optimize_routes: it returns the
distance-matrix entry for the two nodes. -/
def distance_callback (dm : ℕ → ℕ → ℕ) (fromNode toNode : ℕ) : ℕ :=
  dm fromNode toNode

/-- The per-arc increment of the Time dimension in optimize_routes: the Time
dimension is registered on the same transit callback as the arc cost. -/
noncomputable def timeDimensionTransit (data : DataModel) (i j : ℕ) : ℕ :=
  distance_callback (compute_euclidean_distance_matrix data.locations) i j

/-- Abstract view of one vehicle of a solved OR-Tools assignment: the node
sequence walked from the vehicle start up to (excluding) its end index,
the solution minimum of the Time cumul variable at each walked index, and at
the end index. The walk always begins at the depot node. -/
structure VehicleRoute where
  visits : List ℕ
  visitTimes : List ℤ
  endTime : ℤ
deriving DecidableEq, Repr

/-- One emitted stop record of extract_solution. -/
structure StopInfo where
  stop_index : ℕ
  arrival_time : ℤ
  time_window : ℤ × ℤ
  service_time : ℕ
deriving DecidableEq, Repr

/-- One per-vehicle route record of extract_solution. -/
structure Route where
  vehicle_id : ℕ
  technician : Option Technician
  stops : List StopInfo
  total_distance : ℕ
  total_time : ℤ
deriving DecidableEq, Repr

/-- The aggregate result record of extract_solution. -/
structure Result where
  routes : List Route
  total_distance : ℕ
  total_time : ℤ
  num_vehicles_used : ℕ
  success : Bool
deriving DecidableEq, Repr

/-- Sum of distance-matrix entries over consecutive pairs of a node path. -/
def arcPathDistance (dm : ℕ → ℕ → ℕ) : List ℕ → ℕ
  | [] => 0
  | [_] => 0
  | a :: b :: rest => dm a b + arcPathDistance dm (b :: rest)

/-- The per-vehicle body of the extraction loop: record every non-depot
visited node (index shifted by one for the depot, arrival time, the stored
window and service time), the summed arc distance of the full walk back to
the depot end, and the final cumulative time. -/
def extractVehicle (data : DataModel) (dm : ℕ → ℕ → ℕ) (vid : ℕ) (r : VehicleRoute) : Route :=
  { vehicle_id := vid
    technician := data.technicians.get? vid
    stops := (r.visits.zip r.visitTimes).filterMap (fun p =>
      if p.1 = data.depot then none
      else some { stop_index := p.1 - 1
                  arrival_time := p.2
                  time_window := data.time_windows.getD p.1 (0, 0)
                  service_time := data.service_times.getD p.1 0 })
    total_distance := arcPathDistance dm (r.visits ++ [data.depot])
    total_time := r.endTime }

/-- Embedding of extract_solution: build one route per vehicle, keep only
routes with at least one stop, and accumulate the totals over exactly the
kept routes, as the source does inside its final conditional. -/
def extract_solution (data : DataModel) (dm : ℕ → ℕ → ℕ) (sol : List VehicleRoute) : Result :=
  let allRoutes := sol.enum.map (fun p => extractVehicle data dm p.1 p.2)
  let kept := allRoutes.filter (fun r => decide (0 < r.stops.length))
  { routes := kept
    total_distance := (kept.map (fun r => r.total_distance)).sum
    total_time := (kept.map (fun r => r.total_time)).sum
    num_vehicles_used := (kept.filter (fun r => decide (0 < r.stops.length))).length
    success := true }

/-- The time-window constraints optimize_routes posts on the model: every
non-depot node cumul variable is range-restricted to the stored window. A
solution handed back by the routing library satisfies every posted
constraint; this predicate is that contract restricted to those ranges. -/
def RespectsTimeWindows (data : DataModel) (sol : List VehicleRoute) : Prop :=
  ∀ r ∈ sol, ∀ p ∈ r.visits.zip r.visitTimes,
    p.1 ≠ data.depot →
      (data.time_windows.getD p.1 (0, 0)).1 ≤ p.2 ∧
        p.2 ≤ (data.time_windows.getD p.1 (0, 0)).2

/-- The posted-constraint predicate is decidable, so concrete solutions can
be checked by evaluation. -/
instance (data : DataModel) (sol : List VehicleRoute) :
    Decidable (RespectsTimeWindows data sol) := by
  unfold RespectsTimeWindows
  exact inferInstance

/-- Tail of optimize_routes after the search: with a solution in hand the
result is extracted against the Euclidean matrix of the model locations;
with none, the function returns None. The search itself is the external
routing library, represented by the solverOutcome argument. -/
noncomputable def optimize_routes (data : DataModel)
    (solverOutcome : Option (List VehicleRoute)) : Option Result :=
  match solverOutcome with
  | some sol =>
    some (extract_solution data (compute_euclidean_distance_matrix data.locations) sol)
  | none => none

example : time_to_minutes (.vStr "08:30") = .ok 510 := by decide
example : time_to_minutes (.vStr "noon") = .error "ValueError" := by decide
example : time_to_minutes (.vStr "12") = .error "IndexError" := by decide
example : time_to_minutes (.vTime 9 0) = .ok 0 := by decide
example : (create_data_model [] []).isOk = true := by decide

/-- Reduction of Except bind on a success value. -/
@[simp] lemma except_ok_bind {ε β γ : Type} (b : β) (k : β → Except ε γ) :
    (Except.ok b : Except ε β) >>= k = k b := rfl

/-- Reduction of Except bind on an error value. -/
@[simp] lemma except_error_bind {ε β γ : Type} (e : ε) (k : β → Except ε γ) :
    (Except.error e : Except ε β) >>= k = Except.error e := rfl

/-- A successful run of the time-window loop preserves length and acts
elementwise: the window list read at any in-range index is the parsed window
of the stop read there. -/
lemma stopWindowsOf_ok :
    ∀ (l : List Stop) (r : List (Int × Int)), stopWindowsOf l = Except.ok r →
      r.length = l.length ∧
        ∀ (i : ℕ) (da : Stop) (db : Int × Int), i < l.length →
          stopWindow (l.getD i da) = Except.ok (r.getD i db) := by
  intro l
  induction l with
  | nil =>
    intro r h
    cases h
    exact ⟨rfl, fun i da db hi => absurd hi (by simp)⟩
  | cons a t ih =>
    intro r h
    unfold stopWindowsOf at h
    cases hfa : stopWindow a with
    | error e => simp [hfa] at h
    | ok b =>
      cases ht : stopWindowsOf t with
      | error e => simp [hfa, ht] at h
      | ok bs =>
        simp only [hfa, ht, except_ok_bind] at h
        cases h
        refine ⟨by simp [(ih bs ht).1], fun i da db hi => ?_⟩
        cases i with
        | zero => simpa using hfa
        | succ n =>
          simp only [List.getD_cons_succ]
          exact (ih bs ht).2 n da db (by simpa using hi)

/-- Reading a mapped list at an in-range index with a default is the image
of reading the original list there. -/
lemma map_getD {α β : Type} (f : α → β) :
    ∀ (l : List α) (i : ℕ), i < l.length →
      ∀ (da : α) (db : β), (l.map f).getD i db = f (l.getD i da) := by
  intro l
  induction l with
  | nil => intro i hi; simp at hi
  | cons a t ih =>
    intro i hi da db
    cases i with
    | zero => simp
    | succ n =>
      simp only [List.map_cons, List.getD_cons_succ]
      exact ih n (by simpa using hi) da db

/-- The second component of an enumerated-list member is a member of the
underlying list. -/
lemma snd_mem_of_mem_enum {α : Type} {x : ℕ × α} {l : List α}
    (h : x ∈ l.enum) : x.2 ∈ l := by
  exact List.getElem?_mem (List.mem_enum_iff_getElem?.mp h)

/-- The Euclidean travel-time entry is symmetric in its two coordinate
pairs. -/
lemma euclid_time_comm (p q : ℚ × ℚ) : euclid_time p q = euclid_time q p := by
  unfold euclid_time
  have hsym : ((p.1 : ℝ) - (q.1 : ℝ)) ^ 2 + ((p.2 : ℝ) - (q.2 : ℝ)) ^ 2 =
      ((q.1 : ℝ) - (p.1 : ℝ)) ^ 2 + ((q.2 : ℝ) - (p.2 : ℝ)) ^ 2 := by ring
  rw [hsym]

/-- A sample technician record. -/
def sampleTech : Technician := { name := "T" }

/-- A sample stop with a parseable 09:00 to 10:00 window, explicit 30-minute
service duration and nonzero coordinates. -/
def sampleStop : Stop :=
  { name := "A", service_duration := some 30, time_window_start := .vStr "09:00",
    time_window_end := .vStr "10:00", latitude := some 1, longitude := some 1 }

/-- The descriptor create_data_model builds from sampleStop and sampleTech. -/
def d1 : DataModel :=
  { num_vehicles := 1, depot := 0, stops := [sampleStop], technicians := [sampleTech],
    time_windows := [(480, 1020), (540, 600)], service_times := [0, 30],
    locations := [(1, 1), (1, 1)] }

example : create_data_model [sampleStop] [sampleTech] none = .ok d1 := by decide

/-- C1: the claim that the Time-dimension per-arc increment equals the
distance-matrix travel time plus the destination service time is false: on
the descriptor built from sampleStop (service time 30 at node 1), the
registered transit callback returns the matrix entry alone, which differs
from the matrix entry plus 30. -/
theorem c1_counterexample :
    create_data_model [sampleStop] [sampleTech] none = .ok d1 ∧
    timeDimensionTransit d1 0 1 ≠
      compute_euclidean_distance_matrix d1.locations 0 1 + d1.service_times.getD 1 0 := by
  refine ⟨by decide, ?_⟩
  show timeDimensionTransit d1 0 1 ≠ compute_euclidean_distance_matrix d1.locations 0 1 + 30
  unfold timeDimensionTransit distance_callback
  omega

/-- C1 amended: the per-arc increment of the Time dimension equals the
distance-matrix travel time between the two nodes alone; the stored service
times are not added (the increment is unchanged under any replacement of the
service-time list). -/
theorem c1_amended_transit_is_travel_time (data : DataModel) (i j : ℕ) :
    timeDimensionTransit data i j = compute_euclidean_distance_matrix data.locations i j ∧
    ∀ sts : List ℕ,
      timeDimensionTransit { data with service_times := sts } i j =
        timeDimensionTransit data i j :=
  ⟨rfl, fun _ => rfl⟩

/-- The descriptor create_data_model builds from empty inputs. -/
def d0 : DataModel :=
  { num_vehicles := 0, depot := 0, stops := [], technicians := [],
    time_windows := [(480, 1020)], service_times := [0], locations := [(0, 0)] }

/-- C3 counterexample: with an empty stop list and an empty technician list
create_data_model signals no error at all: it returns a complete problem
descriptor, and optimize_routes accepts that descriptor, so the solver stage
is reached. -/
theorem c3_counterexample :
    create_data_model [] [] none = .ok d0 ∧
    (optimize_routes d0 (some [])).isSome = true :=
  ⟨by decide, rfl⟩

/-- C3 amended: the Problem Builder performs no emptiness validation: an
empty stop list yields a successful descriptor for every technician list and
depot argument, and an empty technician list with a parseable stop also
yields a successful descriptor; no error is signalled on either input. -/
theorem c3_amended_no_empty_validation (technicians : List Technician)
    (dl : Option (ℚ × ℚ)) :
    create_data_model [] technicians dl =
      .ok { num_vehicles := technicians.length, depot := 0, stops := [],
            technicians := technicians, time_windows := [(depotStart, depotEnd)],
            service_times := [0], locations := [depotLocation [] dl] } ∧
    (create_data_model [sampleStop] [] dl).isOk = true :=
  ⟨rfl, rfl⟩

/-- A stop whose window-start string cannot be parsed as HH:MM. -/
def noonStop : Stop := { time_window_start := .vStr "noon", time_window_end := .vStr "17:00" }

/-- C4 counterexample: a stop with the malformed window-start string noon
makes create_data_model raise ValueError instead of falling back to the
default working-day window. -/
theorem c4_counterexample :
    create_data_model [noonStop] [sampleTech] none = .error "ValueError" := by decide

/-- C4 amended: the default-window fallback applies exactly to missing or
falsy window fields: when either field is not truthy, the stop receives the
working-day window and no exception occurs; a malformed truthy string
instead raises out of the builder (see the counterexample). -/
theorem c4_amended_fallback_only_when_missing (st : Stop) (tech : List Technician)
    (dl : Option (ℚ × ℚ))
    (h : ¬(st.time_window_start.truthy = true ∧ st.time_window_end.truthy = true)) :
    stopWindow st = .ok (depotStart, depotEnd) ∧
    ∃ d, create_data_model [st] tech dl = .ok d ∧
      d.time_windows = [(depotStart, depotEnd), (depotStart, depotEnd)] := by
  have hcond : (st.time_window_start.truthy && st.time_window_end.truthy) = false := by
    rcases Bool.eq_false_or_eq_true st.time_window_start.truthy with h1 | h1 <;>
      rcases Bool.eq_false_or_eq_true st.time_window_end.truthy with h2 | h2 <;>
        simp [h1, h2] at h ⊢
  have hsw : stopWindow st = .ok (depotStart, depotEnd) := by
    unfold stopWindow
    rw [hcond]
    rfl
  have hws : stopWindowsOf [st] = .ok [(depotStart, depotEnd)] := by
    unfold stopWindowsOf
    rw [hsw]
    rfl
  have hcr : create_data_model [st] tech dl =
      .ok { num_vehicles := tech.length, depot := 0, stops := [st], technicians := tech,
            time_windows := [(depotStart, depotEnd), (depotStart, depotEnd)],
            service_times := [0, st.service_duration.getD 30],
            locations := [depotLocation [st] dl, (st.latitude.getD 0, st.longitude.getD 0)] } := by
    unfold create_data_model
    rw [hws]
    rfl
  exact ⟨hsw, _, hcr, rfl⟩

/-- C4 amended witness: a stop with both window fields absent receives the
default window without an exception. -/
theorem c4_amended_fallback_only_when_missing_witness :
    (¬(({} : Stop).time_window_start.truthy = true ∧
        ({} : Stop).time_window_end.truthy = true)) ∧
    (stopWindow {} = .ok (depotStart, depotEnd) ∧
      ∃ d, create_data_model [{}] [sampleTech] none = .ok d ∧
        d.time_windows = [(depotStart, depotEnd), (depotStart, depotEnd)]) :=
  ⟨by decide, c4_amended_fallback_only_when_missing {} [sampleTech] none (by decide)⟩

/-- A stop whose parsed window is inverted: earliest 600, latest 540. -/
def invStop : Stop := { time_window_start := .vStr "10:00", time_window_end := .vStr "09:00" }

/-- The descriptor create_data_model builds from invStop and sampleTech. -/
def dInv : DataModel :=
  { num_vehicles := 1, depot := 0, stops := [invStop], technicians := [sampleTech],
    time_windows := [(480, 1020), (600, 540)], service_times := [0, 30],
    locations := [(0, 0), (0, 0)] }

/-- C5 counterexample: a stop whose parsed window has earliest 600 greater
than latest 540 is not rejected: create_data_model succeeds and records the
inverted window unchanged at node 1, where the solver stage reads it. -/
theorem c5_counterexample :
    create_data_model [invStop] [sampleTech] none = .ok dInv ∧
    dInv.time_windows.getD 1 (0, 0) = (600, 540) ∧ ¬((600 : ℤ) ≤ 540) := by decide

/-- C5 amended: the builder performs no ordering validation on windows: a
stop whose two window fields parse to s and e yields a descriptor whose node
1 window is exactly (s, e), whatever the order of s and e. -/
theorem c5_amended_window_passed_through (st : Stop) (tech : List Technician)
    (dl : Option (ℚ × ℚ)) (s e : ℤ)
    (h1 : st.time_window_start.truthy = true) (h2 : st.time_window_end.truthy = true)
    (h3 : time_to_minutes st.time_window_start = .ok s)
    (h4 : time_to_minutes st.time_window_end = .ok e) :
    ∃ d, create_data_model [st] tech dl = .ok d ∧
      d.time_windows.getD 1 (0, 0) = (s, e) := by
  have hsw : stopWindow st = .ok (s, e) := by
    unfold stopWindow
    rw [h1, h2]
    simp [h3, h4]
  have hws : stopWindowsOf [st] = .ok [(s, e)] := by
    unfold stopWindowsOf
    rw [hsw]
    rfl
  have hcr : create_data_model [st] tech dl =
      .ok { num_vehicles := tech.length, depot := 0, stops := [st], technicians := tech,
            time_windows := [(depotStart, depotEnd), (s, e)],
            service_times := [0, st.service_duration.getD 30],
            locations := [depotLocation [st] dl, (st.latitude.getD 0, st.longitude.getD 0)] } := by
    unfold create_data_model
    rw [hws]
    rfl
  exact ⟨_, hcr, rfl⟩

/-- C5 amended witness: the inverted window (600, 540) of invStop is passed
through to the descriptor unchanged. -/
theorem c5_amended_window_passed_through_witness :
    invStop.time_window_start.truthy = true ∧ invStop.time_window_end.truthy = true ∧
    time_to_minutes invStop.time_window_start = .ok 600 ∧
    time_to_minutes invStop.time_window_end = .ok 540 ∧
    ∃ d, create_data_model [invStop] [sampleTech] none = .ok d ∧
      d.time_windows.getD 1 (0, 0) = (600, 540) :=
  ⟨by decide, by decide, by decide, by decide,
    c5_amended_window_passed_through invStop [sampleTech] none 600 540
      (by decide) (by decide) (by decide) (by decide)⟩

/-- C6: when the search yields no feasible assignment the solver handle is
None and optimize_routes returns None: no partial or constraint-violating
result object is produced for the caller. -/
theorem c6_no_solution_returns_none (data : DataModel) :
    optimize_routes data none = none := rfl

/-- C10: time_to_minutes maps every non-string value to 0, so a stop whose
two window fields are truthy non-strings silently receives the window
(0, 0) rather than the default working-day window. -/
theorem c10_nonstring_zero_window (v w : PyVal) (tech : List Technician)
    (dl : Option (ℚ × ℚ))
    (hv : v.truthy = true) (hw : w.truthy = true)
    (hvs : ∀ s, v ≠ PyVal.vStr s) (hws2 : ∀ s, w ≠ PyVal.vStr s) :
    time_to_minutes v = .ok 0 ∧
    ∃ d, create_data_model [{ time_window_start := v, time_window_end := w }] tech dl =
        .ok d ∧
      d.time_windows = [(depotStart, depotEnd), (0, 0)] := by
  have hv0 : time_to_minutes v = .ok 0 := by
    cases v with
    | vStr s => exact absurd rfl (hvs s)
    | vNone => rfl
    | vTime h m => rfl
    | vInt n => rfl
  have hw0 : time_to_minutes w = .ok 0 := by
    cases w with
    | vStr s => exact absurd rfl (hws2 s)
    | vNone => rfl
    | vTime h m => rfl
    | vInt n => rfl
  have hsw : stopWindow { time_window_start := v, time_window_end := w } = .ok (0, 0) := by
    unfold stopWindow
    simp only [hv, hw, Bool.and_self, if_true]
    simp [hv0, hw0]
  have hws3 : stopWindowsOf [{ time_window_start := v, time_window_end := w }] =
      .ok [(0, 0)] := by
    unfold stopWindowsOf
    rw [hsw]
    rfl
  refine ⟨hv0, ?_⟩
  have hcr : create_data_model [{ time_window_start := v, time_window_end := w }] tech dl =
      .ok { num_vehicles := tech.length, depot := 0,
            stops := [{ time_window_start := v, time_window_end := w }], technicians := tech,
            time_windows := [(depotStart, depotEnd), (0, 0)],
            service_times := [0, 30],
            locations := [depotLocation [{ time_window_start := v, time_window_end := w }] dl,
              (0, 0)] } := by
    unfold create_data_model
    rw [hws3]
    rfl
  exact ⟨_, hcr, rfl⟩

/-- C10 witness: two time-object window fields (truthy non-strings) give a
stop the window (0, 0). -/
theorem c10_nonstring_zero_window_witness :
    (PyVal.vTime 12 0).truthy = true ∧ (PyVal.vTime 14 0).truthy = true ∧
    (∀ s, PyVal.vTime 12 0 ≠ PyVal.vStr s) ∧ (∀ s, PyVal.vTime 14 0 ≠ PyVal.vStr s) ∧
    (time_to_minutes (PyVal.vTime 12 0) = .ok 0 ∧
      ∃ d, create_data_model
          [{ time_window_start := PyVal.vTime 12 0, time_window_end := PyVal.vTime 14 0 }]
          [] none = .ok d ∧
        d.time_windows = [(depotStart, depotEnd), (0, 0)]) :=
  ⟨rfl, rfl, fun _ h => PyVal.noConfusion h, fun _ h => PyVal.noConfusion h,
    c10_nonstring_zero_window (PyVal.vTime 12 0) (PyVal.vTime 14 0) [] none
      rfl rfl (fun _ h => PyVal.noConfusion h) (fun _ h => PyVal.noConfusion h)⟩

/-- An all-zero distance matrix, used as a concrete matrix argument. -/
def dmZero : ℕ → ℕ → ℕ := fun _ _ => 0

/-- A two-vehicle descriptor over a single stop. -/
def d2 : DataModel :=
  { num_vehicles := 2, depot := 0, stops := [sampleStop],
    technicians := [sampleTech, sampleTech],
    time_windows := [(480, 1020), (540, 600)], service_times := [0, 30],
    locations := [(1, 1), (1, 1)] }

/-- A solved assignment for d2: vehicle 0 serves the stop, vehicle 1 stays
at the depot with final cumulative time 480. -/
def sol2 : List VehicleRoute :=
  [{ visits := [0, 1], visitTimes := [480, 540], endTime := 560 },
   { visits := [0], visitTimes := [480], endTime := 480 }]

/-- C8 counterexample: the aggregate totals do not include the accounting of
dropped empty vehicles: on sol2 the emptied vehicle 1 carries final time 480,
the per-vehicle accounting over all vehicles sums to 1040, yet the emitted
total_time is 560, the sum over the nonempty vehicle only. -/
theorem c8_counterexample :
    (extract_solution d2 dmZero sol2).total_time = 560 ∧
    (sol2.enum.map (fun p => (extractVehicle d2 dmZero p.1 p.2).total_time)).sum = 1040 ∧
    (extract_solution d2 dmZero sol2).total_time ≠
      (sol2.enum.map (fun p => (extractVehicle d2 dmZero p.1 p.2).total_time)).sum := by
  decide

/-- C8 amended: every emitted route has at least one stop, num_vehicles_used
equals the number of emitted routes, success is true, and the aggregate
totals equal the sums over exactly the emitted (nonempty) routes; dropped
empty vehicles are excluded from the totals. -/
theorem c8_amended_result_shape (data : DataModel) (dm : ℕ → ℕ → ℕ)
    (sol : List VehicleRoute) :
    (∀ r ∈ (extract_solution data dm sol).routes, r.stops ≠ []) ∧
    (extract_solution data dm sol).num_vehicles_used =
      (extract_solution data dm sol).routes.length ∧
    (extract_solution data dm sol).success = true ∧
    (extract_solution data dm sol).total_distance =
      ((extract_solution data dm sol).routes.map (fun r => r.total_distance)).sum ∧
    (extract_solution data dm sol).total_time =
      ((extract_solution data dm sol).routes.map (fun r => r.total_time)).sum := by
  refine ⟨?_, ?_, rfl, rfl, rfl⟩
  · intro r hr
    simp only [extract_solution] at hr
    have hp := (List.mem_filter.mp hr).2
    have hlen : 0 < r.stops.length := of_decide_eq_true hp
    exact List.length_pos.mp hlen
  · simp only [extract_solution, List.filter_filter, Bool.and_self]

/-- C2: a returned solution satisfies the cumul-variable ranges posted by
optimize_routes, and then every stop record emitted for it has its recorded
arrival time inside its recorded time window. -/
theorem c2_window_feasibility (data : DataModel) (sol : List VehicleRoute)
    (hvalid : RespectsTimeWindows data sol) :
    ∀ res ∈ optimize_routes data (some sol), ∀ r ∈ res.routes, ∀ si ∈ r.stops,
      si.time_window.1 ≤ si.arrival_time ∧ si.arrival_time ≤ si.time_window.2 := by
  intro res hres r hr si hsi
  have heq : optimize_routes data (some sol) =
      some (extract_solution data (compute_euclidean_distance_matrix data.locations) sol) :=
    rfl
  rw [Option.mem_def, heq] at hres
  have hres2 :
      res = extract_solution data (compute_euclidean_distance_matrix data.locations) sol :=
    (Option.some.inj hres).symm
  subst hres2
  simp only [extract_solution] at hr
  have hr2 := (List.mem_filter.mp hr).1
  obtain ⟨p, hp, hpr⟩ := List.mem_map.mp hr2
  have hvr : p.2 ∈ sol := snd_mem_of_mem_enum hp
  rw [← hpr] at hsi
  simp only [extractVehicle] at hsi
  obtain ⟨q, hq, hqs⟩ := List.mem_filterMap.mp hsi
  by_cases hdep : q.1 = data.depot
  · rw [if_pos hdep] at hqs
    cases hqs
  · rw [if_neg hdep] at hqs
    have hb := hvalid p.2 hvr q hq hdep
    have hsi2 := Option.some.inj hqs
    rw [← hsi2]
    exact hb

/-- C2 witness: on the single-stop descriptor d1 and a one-vehicle solution
arriving at minute 540, the posted ranges hold and every emitted arrival
lies in its window. -/
theorem c2_window_feasibility_witness :
    RespectsTimeWindows d1 [{ visits := [0, 1], visitTimes := [480, 540], endTime := 570 }] ∧
    ∀ res ∈ optimize_routes d1
        (some [{ visits := [0, 1], visitTimes := [480, 540], endTime := 570 }]),
      ∀ r ∈ res.routes, ∀ si ∈ r.stops,
        si.time_window.1 ≤ si.arrival_time ∧ si.arrival_time ≤ si.time_window.2 :=
  ⟨by decide, c2_window_feasibility d1 _ (by decide)⟩

/-- C9: a successful build from nonempty inputs yields parallel lists of
length one more than the stop count, with the depot at index 0 carrying the
working-day window and zero service time, and entry i+1 carrying the parsed
or defaulted window, the service duration (default 30) and the coordinates
of the i-th stop. -/
theorem c9_descriptor_shape (stops : List Stop) (technicians : List Technician)
    (dl : Option (ℚ × ℚ)) (d : DataModel)
    (_hs : stops ≠ []) (_ht : technicians ≠ [])
    (h : create_data_model stops technicians dl = .ok d) :
    d.time_windows.length = stops.length + 1 ∧
    d.service_times.length = stops.length + 1 ∧
    d.locations.length = stops.length + 1 ∧
    d.time_windows.getD 0 (0, 0) = (depotStart, depotEnd) ∧
    d.service_times.getD 0 0 = 0 ∧
    ∀ i, i < stops.length →
      stopWindow (stops.getD i {}) = .ok (d.time_windows.getD (i + 1) (0, 0)) ∧
      d.service_times.getD (i + 1) 0 = (stops.getD i {}).service_duration.getD 30 ∧
      d.locations.getD (i + 1) (0, 0) =
        ((stops.getD i {}).latitude.getD 0, (stops.getD i {}).longitude.getD 0) := by
  unfold create_data_model at h
  cases hws : stopWindowsOf stops with
  | error e =>
    rw [hws] at h
    simp only [except_error_bind] at h
    exact Except.noConfusion h
  | ok ws =>
    rw [hws] at h
    simp only [except_ok_bind] at h
    have hd := Except.ok.inj h
    subst hd
    obtain ⟨hlen, helem⟩ := stopWindowsOf_ok stops ws hws
    refine ⟨by simp [hlen], by simp, by simp, rfl, rfl, fun i hi => ?_⟩
    refine ⟨?_, ?_, ?_⟩
    · have hstep := helem i {} (0, 0) hi
      simpa using hstep
    · simp only [List.getD_cons_succ]
      exact map_getD _ stops i hi {} 0
    · simp only [List.getD_cons_succ]
      exact map_getD _ stops i hi {} (0, 0)

/-- C9 witness: the singleton inputs sampleStop and sampleTech build the
descriptor d1 with the stated shape. -/
theorem c9_descriptor_shape_witness :
    ([sampleStop] ≠ ([] : List Stop) ∧ [sampleTech] ≠ ([] : List Technician) ∧
      create_data_model [sampleStop] [sampleTech] none = .ok d1) ∧
    (d1.time_windows.length = [sampleStop].length + 1 ∧
      d1.service_times.length = [sampleStop].length + 1 ∧
      d1.locations.length = [sampleStop].length + 1 ∧
      d1.time_windows.getD 0 (0, 0) = (depotStart, depotEnd) ∧
      d1.service_times.getD 0 0 = 0 ∧
      ∀ i, i < [sampleStop].length →
        stopWindow ([sampleStop].getD i {}) = .ok (d1.time_windows.getD (i + 1) (0, 0)) ∧
        d1.service_times.getD (i + 1) 0 = ([sampleStop].getD i {}).service_duration.getD 30 ∧
        d1.locations.getD (i + 1) (0, 0) =
          (([sampleStop].getD i {}).latitude.getD 0, ([sampleStop].getD i {}).longitude.getD 0)) :=
  ⟨⟨by decide, by decide, by decide⟩,
    c9_descriptor_shape [sampleStop] [sampleTech] none d1
      (by decide) (by decide) (by decide)⟩

/-- C7: for in-range indices the Euclidean matrix has zero diagonal, is
symmetric, and its off-diagonal entry is the floored minutes value of the
Euclidean degree distance scaled by 69 miles per degree at 30 mph. -/
theorem c7_matrix_properties (locations : List (ℚ × ℚ)) (i j : ℕ)
    (_hi : i < locations.length) (_hj : j < locations.length) :
    compute_euclidean_distance_matrix locations i i = 0 ∧
    compute_euclidean_distance_matrix locations i j =
      compute_euclidean_distance_matrix locations j i ∧
    (i ≠ j → compute_euclidean_distance_matrix locations i j =
      ⌊Real.sqrt ((((locations.getD i (0, 0)).1 : ℝ) - ((locations.getD j (0, 0)).1 : ℝ)) ^ 2 +
          (((locations.getD i (0, 0)).2 : ℝ) - ((locations.getD j (0, 0)).2 : ℝ)) ^ 2) *
        69 / 30 * 60⌋₊) := by
  refine ⟨by simp [compute_euclidean_distance_matrix], ?_, ?_⟩
  · by_cases hij : i = j
    · subst hij; rfl
    · unfold compute_euclidean_distance_matrix
      rw [if_neg hij, if_neg (Ne.symm hij)]
      exact euclid_time_comm _ _
  · intro hij
    unfold compute_euclidean_distance_matrix euclid_time
    rw [if_neg hij]

/-- C7 witness: the matrix over two concrete coordinate pairs at indices 0
and 1 has the three stated properties. -/
theorem c7_matrix_properties_witness :
    (0 < ([(0, 0), (3, 4)] : List (ℚ × ℚ)).length ∧
      1 < ([(0, 0), (3, 4)] : List (ℚ × ℚ)).length) ∧
    (compute_euclidean_distance_matrix [(0, 0), (3, 4)] 0 0 = 0 ∧
      compute_euclidean_distance_matrix [(0, 0), (3, 4)] 0 1 =
        compute_euclidean_distance_matrix [(0, 0), (3, 4)] 1 0 ∧
      (0 ≠ 1 → compute_euclidean_distance_matrix [(0, 0), (3, 4)] 0 1 =
        ⌊Real.sqrt (((([(0, 0), (3, 4)] : List (ℚ × ℚ)).getD 0 (0, 0)).1 -
              (([(0, 0), (3, 4)] : List (ℚ × ℚ)).getD 1 (0, 0)).1 : ℝ) ^ 2 +
            ((([(0, 0), (3, 4)] : List (ℚ × ℚ)).getD 0 (0, 0)).2 -
              (([(0, 0), (3, 4)] : List (ℚ × ℚ)).getD 1 (0, 0)).2 : ℝ) ^ 2) *
          69 / 30 * 60⌋₊)) :=
  ⟨⟨by decide, by decide⟩,
    c7_matrix_properties [(0, 0), (3, 4)] 0 1 (by decide) (by decide)⟩

end RouteOpt
